import Mathlib

/-!
Shallow embedding of `src/deps/uv/src/fs-poll.c` (libuv's timer-driven
filesystem poller) and proofs about it.

Modelling conventions:
- `uv_statbuf_t` is a record of the fields `statbuf_eq` inspects.  We embed
  the Linux configuration (`__linux__ && __USE_MISC`), which compares the
  nanosecond sub-second fields in addition to the whole-second ones, and
  also the generic-Unix configuration (`statbuf_eq_nosub`) that has no
  sub-second fields.
- Machine integers become `Nat`/`Int`.  `uv_now` is monotonic and
  `start_time` is always a past reading of it, so the `uint64_t`
  subtraction `uv_now(loop) - ctx->start_time` never wraps and is embedded
  as `Nat` subtraction.
- `poll_cb` is embedded as a pure function from the context, the stat
  completion (result/errorno/ptr collapsed into `StatOutcome`) and the
  current clock reading, to the updated context, the list of user-callback
  invocations it makes, and the timer delay it arms.
- The lifecycle (which async operation is outstanding, when the context is
  freed by `timer_close_cb`) is a small-step system `Sys` with one step
  function per C callback / API entry point.
-/

namespace FsPoll

/-- The fields of `uv_statbuf_t` (`struct stat`) that `statbuf_eq` reads.
`st_mtim_nsec`/`st_ctim_nsec` are the `st_mtim.tv_nsec`/`st_ctim.tv_nsec`
sub-second fields available on Linux. -/
structure uv_statbuf_t where
  st_dev : Nat
  st_ino : Nat
  st_mode : Nat
  st_uid : Nat
  st_gid : Nat
  st_size : Int
  st_mtime : Int
  st_ctime : Int
  st_mtim_nsec : Int
  st_ctim_nsec : Int
deriving DecidableEq, Repr

/-- `static uv_statbuf_t zero_statbuf;` — zero-initialized static. -/
def zero_statbuf : uv_statbuf_t :=
  { st_dev := 0, st_ino := 0, st_mode := 0, st_uid := 0, st_gid := 0,
    st_size := 0, st_mtime := 0, st_ctime := 0,
    st_mtim_nsec := 0, st_ctim_nsec := 0 }

/-- `statbuf_eq`, Linux configuration (`__linux__ && __USE_MISC`): the two
early-return nanosecond checks, then the common whole-second comparison. -/
def statbuf_eq (a b : uv_statbuf_t) : Bool :=
  if a.st_ctim_nsec ≠ b.st_ctim_nsec then false
  else if a.st_mtim_nsec ≠ b.st_mtim_nsec then false
  else
    a.st_ctime == b.st_ctime
      && a.st_mtime == b.st_mtime
      && a.st_size == b.st_size
      && a.st_mode == b.st_mode
      && a.st_uid == b.st_uid
      && a.st_gid == b.st_gid
      && a.st_ino == b.st_ino
      && a.st_dev == b.st_dev

/-- `statbuf_eq`, generic Unix configuration (no sub-second fields
exposed): only the final whole-second comparison chain. -/
def statbuf_eq_nosub (a b : uv_statbuf_t) : Bool :=
  a.st_ctime == b.st_ctime
    && a.st_mtime == b.st_mtime
    && a.st_size == b.st_size
    && a.st_mode == b.st_mode
    && a.st_uid == b.st_uid
    && a.st_gid == b.st_gid
    && a.st_ino == b.st_ino
    && a.st_dev == b.st_dev

/-- `struct poll_ctx`.  `parent_handle` is embedded as a `Bool`: `true`
means attached (non-NULL back-pointer), `false` means detached (NULL).
The embedded `timer_handle` and `fs_req` carry no poller-visible state of
their own; which of them is outstanding is tracked by `Sys.pending`. -/
structure poll_ctx where
  parent_handle : Bool
  busy_polling : Int
  interval : Nat
  start_time : Nat
  statbuf : uv_statbuf_t
  path : String
deriving DecidableEq, Repr

/-- One invocation of the user callback
`ctx->poll_cb(ctx->parent_handle, status, prev, curr)`. -/
structure CbCall where
  status : Int
  prev : uv_statbuf_t
  curr : uv_statbuf_t
deriving DecidableEq, Repr

/-- A stat completion as delivered to `poll_cb`: either `req->result == 0`
with `req->ptr` pointing at a statbuf, or `req->result != 0` with
`req->errorno` set. -/
inductive StatOutcome where
  | ok (statbuf : uv_statbuf_t)
  | err (errorno : Int)
deriving DecidableEq, Repr

/-- What one run of `poll_cb` does: `freed = true` is the detached path
(`uv_close(&ctx->timer_handle, timer_close_cb)` is issued and the context
will be freed by `timer_close_cb`; nothing else happens).  Otherwise the
context is updated, `calls` lists the user-callback invocations made, and
`timerDelay` is the one-shot delay passed to `uv_timer_start`. -/
structure PollCbResult where
  freed : Bool
  ctx : poll_ctx
  calls : List CbCall
  timerDelay : Option Nat
deriving DecidableEq, Repr

/-- `poll_cb` (fs-poll.c lines 140-180). -/
def poll_cb (ctx : poll_ctx) (out : StatOutcome) (now : Nat) : PollCbResult :=
  if ctx.parent_handle = false then
    { freed := true, ctx := ctx, calls := [], timerDelay := none }
  else
    let r : poll_ctx × List CbCall :=
      match out with
      | StatOutcome.err errorno =>
          if ctx.busy_polling ≠ -errorno then
            ({ ctx with busy_polling := -errorno },
             [{ status := -1, prev := ctx.statbuf, curr := zero_statbuf }])
          else
            (ctx, [])
      | StatOutcome.ok statbuf =>
          ({ ctx with statbuf := statbuf, busy_polling := 1 },
           if ctx.busy_polling ≠ 0 ∧
              (ctx.busy_polling < 0 ∨ statbuf_eq ctx.statbuf statbuf = false)
           then [{ status := 0, prev := ctx.statbuf, curr := statbuf }]
           else [])
    let ctx2 := r.1
    let delay := ctx2.interval - (now - ctx2.start_time) % ctx2.interval
    { freed := false, ctx := ctx2, calls := r.2, timerDelay := some delay }

/-- `uv_fs_poll_t`: the `active` flag maintained by
`uv__handle_start`/`uv__handle_stop`, and the `poll_ctx` slot. -/
structure uv_fs_poll_t where
  active : Bool
  poll_ctx : Option poll_ctx
deriving DecidableEq, Repr

/-- Result of `uv_fs_poll_start`: the updated handle, the return value,
whether a context was allocated and whether a stat was issued. -/
structure StartResult where
  handle : uv_fs_poll_t
  ret : Int
  ctxAllocated : Bool
  statIssued : Bool
deriving DecidableEq, Repr

/-- `uv_fs_poll_start` (fs-poll.c lines 56-94), allocation assumed to
succeed.  `calloc` zero-initializes `busy_polling` and `statbuf`;
`interval ? interval : 1` clamps a zero interval to 1; `start_time` is
`uv_now(loop)`. -/
def uv_fs_poll_start (handle : uv_fs_poll_t) (path : String)
    (interval : Nat) (now : Nat) : StartResult :=
  if handle.active = true then
    { handle := handle, ret := 0, ctxAllocated := false, statIssued := false }
  else
    let ctx : poll_ctx :=
      { parent_handle := true
        busy_polling := 0
        interval := if interval ≠ 0 then interval else 1
        start_time := now
        statbuf := zero_statbuf
        path := path }
    { handle := { active := true, poll_ctx := some ctx }
      ret := 0, ctxAllocated := true, statIssued := true }

/-- Result of `uv_fs_poll_stop`: the updated handle, the return value, and
the context left behind detached (its `parent_handle` nulled), if any. -/
structure StopResult where
  handle : uv_fs_poll_t
  ret : Int
  detachedCtx : Option poll_ctx
deriving DecidableEq, Repr

/-- `uv_fs_poll_stop` (fs-poll.c lines 97-114). -/
def uv_fs_poll_stop (handle : uv_fs_poll_t) : StopResult :=
  if handle.active = false then
    { handle := handle, ret := 0, detachedCtx := none }
  else
    match handle.poll_ctx with
    | some ctx =>
        { handle := { active := false, poll_ctx := none }
          ret := 0
          detachedCtx := some { ctx with parent_handle := false } }
    | none =>
        { handle := { active := false, poll_ctx := none }
          ret := 0, detachedCtx := none }

/-- Observable events for one context: a user-callback invocation, or the
moment `uv_fs_poll_stop` detached the context. -/
inductive Event where
  | cb (call : CbCall)
  | stopCalled
deriving DecidableEq, Repr

/-- Which asynchronous operation of the context is outstanding.
`awaitStat`: the `uv_fs_stat` request is in flight.  `awaitTimer d`: the
timer is armed with delay `d`.  `idle`: the timer was cancelled by
`uv_timer_stop` while armed, nothing is outstanding.  `awaitClose`:
`uv_close(&ctx->timer_handle, timer_close_cb)` was issued and the close
callback is pending.  `freed`: `timer_close_cb` ran and freed the
context. -/
inductive PendingOp where
  | awaitStat
  | awaitTimer (delay : Nat)
  | idle
  | awaitClose
  | freed
deriving DecidableEq, Repr

/-- State of one handle/context pair plus instrumentation: `frees` counts
executions of `free` on the context, `trace` records the observable
events in order. -/
structure Sys where
  handle : uv_fs_poll_t
  ctx : poll_ctx
  pending : PendingOp
  frees : Nat
  trace : List Event
deriving Repr

/-- `uv_fs_poll_stop` as a step on `Sys`: no-op when the handle is
inactive; otherwise it nulls `ctx->parent_handle`, cancels the timer if
armed (`uv_timer_stop`), clears `handle->poll_ctx` and deactivates the
handle. -/
def stopStep (s : Sys) : Sys :=
  if s.handle.active = false then s
  else
    { handle := { active := false, poll_ctx := none }
      ctx := { s.ctx with parent_handle := false }
      pending :=
        match s.pending with
        | PendingOp.awaitTimer _ => PendingOp.idle
        | p => p
      frees := s.frees
      trace := s.trace ++ [Event.stopCalled] }

/-- Delivery of the stat completion: runs `poll_cb`.  On the detached
path the timer close is initiated (`awaitClose`); otherwise the context
is updated, callbacks are appended to the trace, and the timer is armed
with the computed delay. -/
def statCompleteStep (s : Sys) (out : StatOutcome) (now : Nat) : Sys :=
  match s.pending with
  | PendingOp.awaitStat =>
      let r := poll_cb s.ctx out now
      if r.freed then
        { s with pending := PendingOp.awaitClose }
      else
        { s with
            ctx := r.ctx
            pending :=
              match r.timerDelay with
              | some d => PendingOp.awaitTimer d
              | none => PendingOp.idle
            trace := s.trace ++ r.calls.map Event.cb }
  | _ => s

/-- `timer_cb` (fs-poll.c lines 122-137) as a step: fires only when the
timer is armed.  Detached: initiate the timer close.  Attached: reset
`start_time` to `uv_now(loop)` and issue the next stat. -/
def timer_cb_step (s : Sys) (now : Nat) : Sys :=
  match s.pending with
  | PendingOp.awaitTimer _ =>
      if s.ctx.parent_handle = false then
        { s with pending := PendingOp.awaitClose }
      else
        { s with
            ctx := { s.ctx with start_time := now }
            pending := PendingOp.awaitStat }
  | _ => s

/-- `timer_close_cb` (fs-poll.c lines 183-185) as a step: frees the
context. -/
def timer_close_cb_step (s : Sys) : Sys :=
  match s.pending with
  | PendingOp.awaitClose => { s with pending := PendingOp.freed, frees := s.frees + 1 }
  | _ => s

/-- The sequence claim C1 is about: `stop` while the stat is in flight,
then the stat completion is delivered, then the timer close completes. -/
def afterStopStat (s : Sys) (out : StatOutcome) (now : Nat) : Sys :=
  timer_close_cb_step (statCompleteStep (stopStep s) out now)

/-- `n` consecutive stat completions all failing with error code `e`,
collecting every user-callback invocation made along the way. -/
def iterSameErr (ctx : poll_ctx) (e : Int) (now : Nat) : Nat → poll_ctx × List CbCall
  | 0 => (ctx, [])
  | Nat.succ n =>
      let r := poll_cb ctx (StatOutcome.err e) now
      let p := iterSameErr r.ctx e now n
      (p.1, r.calls ++ p.2)

/-- The spec's abstract status of a context, read off the code's
`busy_polling` encoding: `0` is Unprimed, positive (always `1`) is
Primed, negative is Failing with code `-busy_polling`. -/
inductive Status where
  | unprimed
  | primed
  | failing (code : Int)
deriving DecidableEq, Repr

def statusOf (c : poll_ctx) : Status :=
  if c.busy_polling = 0 then Status.unprimed
  else if 0 < c.busy_polling then Status.primed
  else Status.failing (-c.busy_polling)

/-! Sample values used to instantiate theorems on concrete inputs. -/

/-- A freshly created context: attached, unprimed, interval 100,
cycle started at time 0. -/
def ctxA : poll_ctx :=
  { parent_handle := true, busy_polling := 0, interval := 100,
    start_time := 0, statbuf := zero_statbuf, path := "f" }

/-- `ctxA` after a first successful stat: primed. -/
def ctxP : poll_ctx := { ctxA with busy_polling := 1 }

def handleActive : uv_fs_poll_t := { active := true, poll_ctx := some ctxA }

def handleIdle : uv_fs_poll_t := { active := false, poll_ctx := none }

/-- An attached context with its stat request in flight. -/
def sysA : Sys :=
  { handle := handleActive, ctx := ctxA, pending := PendingOp.awaitStat,
    frees := 0, trace := [] }

/-! Helper lemmas. -/

/-- `poll_cb` never writes `parent_handle`. -/
theorem poll_cb_parent (ctx : poll_ctx) (out : StatOutcome) (now : Nat) :
    (poll_cb ctx out now).ctx.parent_handle = ctx.parent_handle := by
  unfold poll_cb
  split_ifs with h
  · rfl
  · cases out with
    | ok sb => simp
    | err e =>
        by_cases hb : ctx.busy_polling ≠ -e <;> simp [hb]

/-- `poll_cb` never writes `statbuf` on the error path. -/
theorem poll_cb_err_statbuf (ctx : poll_ctx) (e : Int) (now : Nat) :
    (poll_cb ctx (StatOutcome.err e) now).ctx.statbuf = ctx.statbuf := by
  unfold poll_cb
  split_ifs with h
  · rfl
  · by_cases hb : ctx.busy_polling ≠ -e <;> simp [hb]

/-- On an attached context, a failing stat completion leaves
`busy_polling = -errorno`, whether or not the callback fired. -/
theorem poll_cb_err_busy (ctx : poll_ctx) (e : Int) (now : Nat)
    (hatt : ctx.parent_handle = true) :
    (poll_cb ctx (StatOutcome.err e) now).ctx.busy_polling = -e := by
  unfold poll_cb
  rw [hatt]
  by_cases hb : ctx.busy_polling ≠ -e
  · simp [hb]
  · simp at hb
    simp [hb]

/-- On an attached context already failing with the same code, a failing
stat completion makes no callback and leaves the context unchanged. -/
theorem poll_cb_err_suppressed (ctx : poll_ctx) (e : Int) (now : Nat)
    (hatt : ctx.parent_handle = true) (hb : ctx.busy_polling = -e) :
    (poll_cb ctx (StatOutcome.err e) now).ctx = ctx ∧
    (poll_cb ctx (StatOutcome.err e) now).calls = [] := by
  unfold poll_cb
  rw [hatt]
  simp [hb]

/-- Iterating an already-suppressed error produces no callbacks and never
changes the context. -/
theorem iterSameErr_suppressed (e : Int) (now : Nat) (n : Nat) :
    ∀ ctx : poll_ctx, ctx.parent_handle = true → ctx.busy_polling = -e →
      iterSameErr ctx e now n = (ctx, []) := by
  induction n with
  | zero => intro ctx _ _; rfl
  | succ n ih =>
      intro ctx hatt hb
      have hs := poll_cb_err_suppressed ctx e now hatt hb
      simp only [iterSameErr]
      rw [hs.1, hs.2, ih ctx hatt hb]
      simp

/-! Claim theorems. -/

/-- C3: the comparator reports two snapshots equal iff they agree on size,
mode, uid, gid, inode, device, and on the modification and change
timestamps at the finest resolution the platform exposes: in the
sub-second configuration the nanosecond fields must also agree, in the
whole-second configuration only `st_mtime`/`st_ctime` are compared. -/
theorem statbuf_eq_iff_fields (a b : uv_statbuf_t) :
    (statbuf_eq a b = true ↔
      (a.st_size = b.st_size ∧ a.st_mode = b.st_mode ∧ a.st_uid = b.st_uid ∧
       a.st_gid = b.st_gid ∧ a.st_ino = b.st_ino ∧ a.st_dev = b.st_dev ∧
       a.st_mtime = b.st_mtime ∧ a.st_ctime = b.st_ctime ∧
       a.st_mtim_nsec = b.st_mtim_nsec ∧ a.st_ctim_nsec = b.st_ctim_nsec)) ∧
    (statbuf_eq_nosub a b = true ↔
      (a.st_size = b.st_size ∧ a.st_mode = b.st_mode ∧ a.st_uid = b.st_uid ∧
       a.st_gid = b.st_gid ∧ a.st_ino = b.st_ino ∧ a.st_dev = b.st_dev ∧
       a.st_mtime = b.st_mtime ∧ a.st_ctime = b.st_ctime)) := by
  constructor
  · unfold statbuf_eq
    split_ifs with h1 h2
    · simp
      tauto
    · simp
      tauto
    · simp only [Bool.and_eq_true, beq_iff_eq]
      constructor
      · intro h
        tauto
      · intro h
        tauto
  · unfold statbuf_eq_nosub
    simp only [Bool.and_eq_true, beq_iff_eq]
    constructor
    · intro h
      tauto
    · intro h
      tauto

/-- C4: on an attached, still-unprimed context, a first successful stat
completion makes no user callback; it records the snapshot as the
baseline and moves the status to Primed. -/
theorem first_success_primes_without_callback (ctx : poll_ctx)
    (sb : uv_statbuf_t) (now : Nat)
    (hatt : ctx.parent_handle = true) (hun : ctx.busy_polling = 0) :
    (poll_cb ctx (StatOutcome.ok sb) now).calls = [] ∧
    (poll_cb ctx (StatOutcome.ok sb) now).ctx.statbuf = sb ∧
    statusOf (poll_cb ctx (StatOutcome.ok sb) now).ctx = Status.primed := by
  unfold poll_cb
  rw [hatt]
  simp [hun, statusOf]

/-- Witness for C4 at a concrete context. -/
theorem first_success_primes_without_callback_witness :
    (poll_cb ctxA (StatOutcome.ok zero_statbuf) 30).calls = [] ∧
    (poll_cb ctxA (StatOutcome.ok zero_statbuf) 30).ctx.statbuf = zero_statbuf ∧
    statusOf (poll_cb ctxA (StatOutcome.ok zero_statbuf) 30).ctx = Status.primed :=
  first_success_primes_without_callback ctxA zero_statbuf 30 rfl rfl

/-- C6: on an attached, primed context, a successful stat completion
whose snapshot compares equal to the stored one makes no user
callback. -/
theorem unchanged_snapshot_no_callback (ctx : poll_ctx) (sb : uv_statbuf_t)
    (now : Nat) (hatt : ctx.parent_handle = true)
    (hprimed : ctx.busy_polling = 1)
    (heq : statbuf_eq ctx.statbuf sb = true) :
    (poll_cb ctx (StatOutcome.ok sb) now).calls = [] := by
  unfold poll_cb
  rw [hatt]
  simp [hprimed, heq]

/-- Witness for C6 at a concrete context. -/
theorem unchanged_snapshot_no_callback_witness :
    (poll_cb ctxP (StatOutcome.ok zero_statbuf) 130).calls = [] :=
  unchanged_snapshot_no_callback ctxP zero_statbuf 130 rfl rfl (by decide)

/-- C7: `uv_fs_poll_start` on an active handle returns 0 and changes
nothing (no context allocated, no stat issued, handle and its context
slot untouched); `uv_fs_poll_stop` on an inactive handle returns 0 and
changes nothing. -/
theorem start_stop_noop :
    (∀ (h : uv_fs_poll_t) (path : String) (i now : Nat), h.active = true →
        uv_fs_poll_start h path i now =
          { handle := h, ret := 0, ctxAllocated := false, statIssued := false }) ∧
    (∀ h : uv_fs_poll_t, h.active = false →
        uv_fs_poll_stop h = { handle := h, ret := 0, detachedCtx := none }) := by
  constructor
  · intro h path i now hact
    unfold uv_fs_poll_start
    rw [hact]
    simp
  · intro h hina
    unfold uv_fs_poll_stop
    rw [hina]
    simp

/-- Witness for C7 at a concrete active and a concrete inactive handle. -/
theorem start_stop_noop_witness :
    uv_fs_poll_start handleActive "f" 100 0 =
      { handle := handleActive, ret := 0, ctxAllocated := false,
        statIssued := false } ∧
    uv_fs_poll_stop handleIdle =
      { handle := handleIdle, ret := 0, detachedCtx := none } :=
  ⟨start_stop_noop.1 handleActive "f" 100 0 rfl, start_stop_noop.2 handleIdle rfl⟩

/-- C2: every stat completion handled while attached arms the timer with
delay `interval - ((now - start_time) mod interval)`, where `start_time`
is not touched by the stat completion handler itself but is reset to the
current clock reading when the timer fires and the next stat is
issued. -/
theorem drift_corrected_delay (ctx : poll_ctx) (out : StatOutcome) (now : Nat)
    (hatt : ctx.parent_handle = true) :
    (poll_cb ctx out now).timerDelay =
      some (ctx.interval - (now - ctx.start_time) % ctx.interval) ∧
    (poll_cb ctx out now).ctx.start_time = ctx.start_time ∧
    (∀ (s : Sys) (d nowFire : Nat),
        s.pending = PendingOp.awaitTimer d → s.ctx.parent_handle = true →
        (timer_cb_step s nowFire).ctx.start_time = nowFire ∧
        (timer_cb_step s nowFire).pending = PendingOp.awaitStat) := by
  refine ⟨?_, ?_, ?_⟩
  · unfold poll_cb
    rw [hatt]
    cases out with
    | ok sb => simp
    | err e => by_cases hb : ctx.busy_polling ≠ -e <;> simp [hb]
  · unfold poll_cb
    rw [hatt]
    cases out with
    | ok sb => simp
    | err e => by_cases hb : ctx.busy_polling ≠ -e <;> simp [hb]
  · intro s d nowFire hp hatt2
    unfold timer_cb_step
    rw [hp, hatt2]
    simp

/-- Witness for C2: interval 100, cycle started at 0, stat completing at
30 arms the timer for 70. -/
theorem drift_corrected_delay_witness :
    (poll_cb ctxA (StatOutcome.ok zero_statbuf) 30).timerDelay = some 70 := by
  have h := (drift_corrected_delay ctxA (StatOutcome.ok zero_statbuf) 30 rfl).1
  simpa [ctxA] using h

/-- C9: `uv_fs_poll_start` on an inactive handle stores interval 1 when
the requested interval is 0 and the requested interval otherwise, so the
stored interval is always at least 1; no later operation ever changes
it. -/
theorem interval_clamped_positive (h : uv_fs_poll_t) (path : String)
    (i now : Nat) (hina : h.active = false) :
    (∃ ctx, (uv_fs_poll_start h path i now).handle.poll_ctx = some ctx ∧
        ctx.interval = (if i = 0 then 1 else i) ∧ 1 ≤ ctx.interval) ∧
    (∀ (c : poll_ctx) (out : StatOutcome) (n : Nat),
        (poll_cb c out n).ctx.interval = c.interval) ∧
    (∀ (s : Sys) (n : Nat), (timer_cb_step s n).ctx.interval = s.ctx.interval) ∧
    (∀ s : Sys, (stopStep s).ctx.interval = s.ctx.interval) := by
  refine ⟨?_, ?_, ?_, ?_⟩
  · unfold uv_fs_poll_start
    rw [hina]
    simp only [Bool.false_eq_true, if_false]
    refine ⟨_, rfl, ?_, ?_⟩
    · by_cases hi : i = 0 <;> simp [hi]
    · by_cases hi : i = 0 <;> simp [hi]
      omega
  · intro c out n
    unfold poll_cb
    split_ifs with hd
    · rfl
    · cases out with
      | ok sb => simp
      | err e => by_cases hb : c.busy_polling ≠ -e <;> simp [hb]
  · intro s n
    unfold timer_cb_step
    cases hp : s.pending <;> simp
    split_ifs <;> simp
  · intro s
    unfold stopStep
    split_ifs <;> simp

/-- Witness for C9: starting with interval 0 on an inactive handle. -/
theorem interval_clamped_positive_witness :
    ∃ ctx, (uv_fs_poll_start handleIdle "f" 0 5).handle.poll_ctx = some ctx ∧
      ctx.interval = (if 0 = 0 then 1 else 0) ∧ 1 ≤ ctx.interval :=
  (interval_clamped_positive handleIdle "f" 0 5 rfl).1

/-- C10: if the very first stat after `start` fails with a nonzero error
code, the user callback fires with both the previous and the current
snapshot equal to the all-zero snapshot: the previous because `calloc`
zero-initialized the context's statbuf, the current because the error
path passes the `zero_statbuf` sentinel. -/
theorem first_failure_zero_zero_callback (h : uv_fs_poll_t) (path : String)
    (i now : Nat) (e : Int) (n2 : Nat)
    (hina : h.active = false) (he : e ≠ 0) :
    ∃ ctx, (uv_fs_poll_start h path i now).handle.poll_ctx = some ctx ∧
      (poll_cb ctx (StatOutcome.err e) n2).calls =
        [{ status := -1, prev := zero_statbuf, curr := zero_statbuf }] := by
  unfold uv_fs_poll_start
  rw [hina]
  simp only [Bool.false_eq_true, if_false]
  refine ⟨_, rfl, ?_⟩
  unfold poll_cb
  have hb : (0 : Int) ≠ -e := by omega
  simp [hb]

/-- Witness for C10: first stat fails with code 2. -/
theorem first_failure_zero_zero_callback_witness :
    ∃ ctx, (uv_fs_poll_start handleIdle "f" 100 0).handle.poll_ctx = some ctx ∧
      (poll_cb ctx (StatOutcome.err 2) 30).calls =
        [{ status := -1, prev := zero_statbuf, curr := zero_statbuf }] :=
  first_failure_zero_zero_callback handleIdle "f" 100 0 2 30 rfl (by decide)

/-- On an attached context whose `busy_polling` differs from `-errorno`,
a failing stat completion fires the callback with status `-1`, the stored
snapshot as previous and the zero sentinel as current. -/
theorem poll_cb_err_fires (ctx : poll_ctx) (e : Int) (now : Nat)
    (hatt : ctx.parent_handle = true) (hne : ctx.busy_polling ≠ -e) :
    (poll_cb ctx (StatOutcome.err e) now).calls =
      [{ status := -1, prev := ctx.statbuf, curr := zero_statbuf }] ∧
    (poll_cb ctx (StatOutcome.err e) now).ctx =
      { ctx with busy_polling := -e } := by
  unfold poll_cb
  rw [hatt]
  simp [hne]

/-- C8: a stat completion handled while attached (with the error code
positive on failure, as the stat primitive guarantees) always leaves the
status Primed or Failing — having left Unprimed, a context never
reverts to it. -/
theorem status_never_reverts_unprimed (ctx : poll_ctx) (out : StatOutcome)
    (now : Nat) (hatt : ctx.parent_handle = true)
    (herr : ∀ e, out = StatOutcome.err e → 0 < e) :
    statusOf (poll_cb ctx out now).ctx ≠ Status.unprimed ∧
    (statusOf (poll_cb ctx out now).ctx = Status.primed ∨
      ∃ c, 0 < c ∧ statusOf (poll_cb ctx out now).ctx = Status.failing c) := by
  cases out with
  | ok sb =>
      have hbp : (poll_cb ctx (StatOutcome.ok sb) now).ctx.busy_polling = 1 := by
        unfold poll_cb
        rw [hatt]
        simp
      constructor
      · simp [statusOf, hbp]
      · left
        simp [statusOf, hbp]
  | err e =>
      have he : 0 < e := herr e rfl
      have hbp := poll_cb_err_busy ctx e now hatt
      have hst : statusOf (poll_cb ctx (StatOutcome.err e) now).ctx =
          Status.failing e := by
        unfold statusOf
        rw [hbp]
        have h1 : ¬(-e = 0) := by omega
        have h2 : ¬(0 < -e) := by omega
        simp [h1, h2]
      constructor
      · rw [hst]
        simp
      · right
        exact ⟨e, he, hst⟩

/-- Witness for C8: a failing first stat with code 2 leaves the status
Failing, not Unprimed. -/
theorem status_never_reverts_unprimed_witness :
    statusOf (poll_cb ctxA (StatOutcome.err 2) 30).ctx ≠ Status.unprimed :=
  (status_never_reverts_unprimed ctxA (StatOutcome.err 2) 30 rfl
      (by intro e h; injection h with h1; omega)).1

/-- C5: starting from an attached context not already failing with code
`e`, any number of consecutive failing completions with code `e` fire the
user callback exactly once — on the first failure, with status `-1` and
the zero sentinel as current snapshot — and a subsequent failure with a
different code `e2` fires it again. -/
theorem same_error_fires_once (ctx : poll_ctx) (e : Int) (now : Nat) (n : Nat)
    (hatt : ctx.parent_handle = true) (hne : ctx.busy_polling ≠ -e) :
    (iterSameErr ctx e now (n + 1)).2 =
      [{ status := -1, prev := ctx.statbuf, curr := zero_statbuf }] ∧
    (∀ e2, e2 ≠ e →
        (poll_cb (iterSameErr ctx e now (n + 1)).1 (StatOutcome.err e2) now).calls =
          [{ status := -1, prev := ctx.statbuf, curr := zero_statbuf }]) := by
  have hfire := poll_cb_err_fires ctx e now hatt hne
  have hatt2 : (poll_cb ctx (StatOutcome.err e) now).ctx.parent_handle = true := by
    rw [poll_cb_parent]
    exact hatt
  have hbp := poll_cb_err_busy ctx e now hatt
  have hiter := iterSameErr_suppressed e now n
    (poll_cb ctx (StatOutcome.err e) now).ctx hatt2 hbp
  have hmain : iterSameErr ctx e now (n + 1) =
      ((poll_cb ctx (StatOutcome.err e) now).ctx,
       [{ status := -1, prev := ctx.statbuf, curr := zero_statbuf }]) := by
    simp only [iterSameErr]
    rw [hiter, hfire.1]
    simp
  constructor
  · rw [hmain]
  · intro e2 hne2
    have hb2 : (poll_cb ctx (StatOutcome.err e) now).ctx.busy_polling ≠ -e2 := by
      rw [hbp]
      omega
    have hsb := poll_cb_err_statbuf ctx e now
    have hfire2 := poll_cb_err_fires (poll_cb ctx (StatOutcome.err e) now).ctx
      e2 now hatt2 hb2
    rw [hmain]
    rw [show ((poll_cb ctx (StatOutcome.err e) now).ctx,
          [{ status := -1, prev := ctx.statbuf,
             curr := zero_statbuf : CbCall }]).1 =
        (poll_cb ctx (StatOutcome.err e) now).ctx from rfl]
    rw [hfire2.1, hsb]

/-- Witness for C5: four consecutive failures with code 2 starting from a
fresh context fire exactly one callback; a fifth failure with code 5
fires again. -/
theorem same_error_fires_once_witness :
    (iterSameErr ctxA 2 30 4).2 =
      [{ status := -1, prev := zero_statbuf, curr := zero_statbuf }] ∧
    (poll_cb (iterSameErr ctxA 2 30 4).1 (StatOutcome.err 5) 30).calls =
      [{ status := -1, prev := zero_statbuf, curr := zero_statbuf }] := by
  have h := same_error_fires_once ctxA 2 30 3 rfl (by decide)
  exact ⟨h.1, h.2 5 (by decide)⟩

/-- C1: calling `stop` while the context is attached with a stat in
flight, then delivering that stat's completion and the resulting timer
close, frees the context exactly once (`frees` goes up by exactly 1, in
the final `timer_close_cb`), fires no user callback at or after the stop
(the trace gains only the stop marker), and leaves a terminal state no
further step changes. -/
theorem stop_during_inflight_stat_frees_once (s : Sys) (out : StatOutcome)
    (now : Nat) (hact : s.handle.active = true)
    (hatt : s.ctx.parent_handle = true)
    (hpend : s.pending = PendingOp.awaitStat) :
    (afterStopStat s out now).frees = s.frees + 1 ∧
    (afterStopStat s out now).trace = s.trace ++ [Event.stopCalled] ∧
    (afterStopStat s out now).pending = PendingOp.freed ∧
    (∀ out2 now2, statCompleteStep (afterStopStat s out now) out2 now2 =
        afterStopStat s out now) ∧
    (∀ now2, timer_cb_step (afterStopStat s out now) now2 =
        afterStopStat s out now) ∧
    timer_close_cb_step (afterStopStat s out now) = afterStopStat s out now ∧
    stopStep (afterStopStat s out now) = afterStopStat s out now := by
  have h1 : stopStep s =
      { handle := { active := false, poll_ctx := none }
        ctx := { s.ctx with parent_handle := false }
        pending := PendingOp.awaitStat
        frees := s.frees
        trace := s.trace ++ [Event.stopCalled] } := by
    unfold stopStep
    rw [hact, hpend]
    simp
  have h2 : afterStopStat s out now =
      { handle := { active := false, poll_ctx := none }
        ctx := { s.ctx with parent_handle := false }
        pending := PendingOp.freed
        frees := s.frees + 1
        trace := s.trace ++ [Event.stopCalled] } := by
    unfold afterStopStat
    rw [h1]
    unfold statCompleteStep poll_cb timer_close_cb_step
    simp
  rw [h2]
  exact ⟨rfl, rfl, rfl, fun out2 now2 => rfl, fun now2 => rfl, rfl, rfl⟩

/-- Witness for C1 at a concrete in-flight system state. -/
theorem stop_during_inflight_stat_frees_once_witness :
    (afterStopStat sysA (StatOutcome.ok zero_statbuf) 30).frees =
      sysA.frees + 1 ∧
    (afterStopStat sysA (StatOutcome.ok zero_statbuf) 30).trace =
      sysA.trace ++ [Event.stopCalled] ∧
    (afterStopStat sysA (StatOutcome.ok zero_statbuf) 30).pending =
      PendingOp.freed := by
  have h := stop_during_inflight_stat_frees_once sysA
    (StatOutcome.ok zero_statbuf) 30 rfl rfl rfl
  exact ⟨h.1, h.2.1, h.2.2.1⟩

end FsPoll
